import Mathlib

/-!
Shallow embedding of the Freshdesk ticket-viewer retrieval/normalization layer.

Source files embedded here:
  * `src/lib/freshdesk-api.ts` — the upstream client (`FreshdeskAPI`): base-URL
    construction, per-operation error messages, attachment filename extraction.
  * the ticket route handler (`GET /api/freshdesk/tickets/[id]`) — input
    validation, configuration validation, payload transformation.
  * the conversations route handler (`GET /api/freshdesk/tickets/[id]/conversations`).
  * the attachment proxy route handler (`GET /api/freshdesk/attachments/[id]`).
  * the search route handler (`GET /api/freshdesk/search`).
  * the dashboard component's client-side fetch helpers (`fetchTicketDetails`,
    `fetchConversations`) and the `useFreshdeskData` load logic.

JavaScript-specific behaviour (truthiness of `""`/`0`/`undefined`, `parseInt`,
`String.prototype.replace` replacing only the first occurrence, the
content-disposition regex) is modelled explicitly.  Network effects are made
explicit: each route handler takes the upstream behaviour as a function
argument and records the list of upstream calls it performs.
-/

namespace Freshdesk

/-- JS `a || d` for an optional string `a` (absent and `""` are falsy). -/
def jsOrS (a : Option String) (d : String) : String :=
  match a with
  | some s => if s = "" then d else s
  | none => d

/-- JS `s || d` for two strings (`""` is falsy). -/
def jsOr2 (s d : String) : String := if s = "" then d else s

/-- JS `a || b` where both operands are optional strings; the result keeps
the second operand as-is when the first is falsy. -/
def jsOrOpt (a b : Option String) : Option String :=
  match a with
  | some s => if s = "" then b else some s
  | none => b

/-- JS `a || null` for an optional string (used for avatar fields). -/
def jsOrNull (a : Option String) : Option String :=
  match a with
  | some s => if s = "" then none else some s
  | none => none

/-- Whitespace skipped by `Number.parseInt` before reading digits. -/
def isWS (c : Char) : Bool :=
  c = ' ' || c = '\t' || c = '\n' || c = '\r' || c = '\x0b' || c = '\x0c'

/-- Decimal digit test. -/
def isDigitChar (c : Char) : Bool := '0' ≤ c && c ≤ '9'

/-- Hexadecimal digit test. -/
def isHexDigitChar (c : Char) : Bool :=
  isDigitChar c || ('a' ≤ c && c ≤ 'f') || ('A' ≤ c && c ≤ 'F')

/-- Numeric value of a (hexa)decimal digit character. -/
def digitVal (c : Char) : Nat :=
  if isDigitChar c then c.toNat - '0'.toNat
  else if 'a' ≤ c && c ≤ 'f' then c.toNat - 'a'.toNat + 10
  else c.toNat - 'A'.toNat + 10

/-- Value of a digit string in base `b` (most significant digit first). -/
def digitsValBase (b : Nat) (l : List Char) : Nat :=
  l.foldl (fun a c => a * b + digitVal c) 0

/-- `Number.parseInt(s)` with the radix argument omitted: skip whitespace,
read an optional sign, honour a `0x`/`0X` prefix as hexadecimal, then read the
longest digit prefix.  `none` models `NaN`. -/
def jsParseInt (s : String) : Option Int :=
  let l0 := s.data.dropWhile isWS
  let sgnRest : Int × List Char :=
    match l0 with
    | '-' :: r => (-1, r)
    | '+' :: r => (1, r)
    | _ => (1, l0)
  let baseRest : Nat × List Char :=
    match sgnRest.2 with
    | '0' :: 'x' :: r => (16, r)
    | '0' :: 'X' :: r => (16, r)
    | _ => (10, sgnRest.2)
  let ds := baseRest.2.takeWhile
    (fun c => if baseRest.1 = 16 then isHexDigitChar c else isDigitChar c)
  if ds = [] then none
  else some (sgnRest.1 * Int.ofNat (digitsValBase baseRest.1 ds))

/-- Boolean substring scan: does `pat` occur (as a contiguous run) in the
haystack?  Models `String.prototype.includes`. -/
def containsSub (pat : List Char) : List Char → Bool
  | [] => pat.isEmpty
  | c :: cs => pat.isPrefixOf (c :: cs) || containsSub pat cs

/-- `s.includes(pat)` on strings. -/
def strContains (s pat : String) : Bool := containsSub pat.data s.data

/-- JS `String.prototype.replace` with a plain-string pattern and empty
replacement: removes only the first occurrence of `pat`. -/
def replaceFirst (pat : List Char) : List Char → List Char
  | [] => []
  | c :: cs =>
    if pat.isPrefixOf (c :: cs) then (c :: cs).drop pat.length
    else c :: replaceFirst pat cs

/-- The suffix stripped from the configured domain, as a character list. -/
def fdSuffix : List Char := ".freshdesk.com".data

/-- `config.domain.replace(".freshdesk.com", "")` from the `FreshdeskAPI`
constructor. -/
def cleanDomain (d : String) : String := String.mk (replaceFirst fdSuffix d.data)

/-- `this.baseUrl` computed by the `FreshdeskAPI` constructor. -/
def baseUrl (d : String) : String :=
  "https://" ++ cleanDomain d ++ ".freshdesk.com/api/v2"

/-- The two environment-provided configuration strings.  `freshdeskConfig`
defaults an unset environment variable to `""`, so `""` models both the unset
and the empty case. -/
structure FreshdeskConfig where
  domain : String
  apiKey : String
deriving DecidableEq

/-- Status-code normalization from the ticket route's nested conditional:
2 is open, 3 pending, 4 resolved, 5 closed, everything else (including a
missing value) open. -/
def normalizeStatus (st : Option Int) : String :=
  if st = some 2 then "open"
  else if st = some 3 then "pending"
  else if st = some 4 then "resolved"
  else if st = some 5 then "closed"
  else "open"

/-- Priority-code normalization from the ticket route's nested conditional:
1 is low, 2 medium, 3 high, 4 urgent, everything else medium. -/
def normalizePriority (p : Option Int) : String :=
  if p = some 1 then "low"
  else if p = some 2 then "medium"
  else if p = some 3 then "high"
  else if p = some 4 then "urgent"
  else "medium"

/-- Raw upstream ticket payload: exactly the fields the ticket route reads.
Optional fields model properties that may be absent (or `null`) in the JSON. -/
structure RawTicket where
  id : Int
  subject : String
  description : Option String
  description_text : Option String
  status : Option Int
  priority : Option Int
  requesterName : Option String
  requesterEmail : Option String
  requesterPhone : Option String
  requesterAvatar : Option String
  responder_id : Option Int
  responderName : Option String
  responderEmail : Option String
  responderAvatar : Option String
  created_at : String
  updated_at : String
  tags : Option (List String)
deriving DecidableEq

/-- Normalized requester sub-record. -/
structure Requester where
  name : String
  email : String
  phone : Option String
  avatar : Option String
deriving DecidableEq

/-- Normalized agent sub-record. -/
structure Agent where
  name : String
  email : String
  avatar : Option String
deriving DecidableEq

/-- Normalized ticket record (the ticket route's `transformedTicket`). -/
structure Ticket where
  id : Int
  subject : String
  description : Option String
  status : String
  priority : String
  requester : Requester
  agent : Option Agent
  created_at : String
  updated_at : String
  tags : List String
deriving DecidableEq

/-- The ticket route's `transformedTicket` construction.  Note the agent
sub-record is produced by `ticketData.responder_id ? {...} : undefined`, so a
missing or zero (falsy) `responder_id` yields no agent. -/
def transformTicket (t : RawTicket) : Ticket :=
  { id := t.id
    subject := t.subject
    description := jsOrOpt t.description_text t.description
    status := normalizeStatus t.status
    priority := normalizePriority t.priority
    requester :=
      { name := jsOrS t.requesterName "Unknown"
        email := jsOrS t.requesterEmail "unknown@example.com"
        phone := t.requesterPhone
        avatar := t.requesterAvatar }
    agent :=
      match t.responder_id with
      | some rid =>
        if rid = 0 then none
        else some
          { name := jsOrS t.responderName "Unassigned"
            email := jsOrS t.responderEmail ""
            avatar := t.responderAvatar }
      | none => none
    created_at := t.created_at
    updated_at := t.updated_at
    tags := t.tags.getD [] }

/-- Attachment record passed through unchanged by the conversations route. -/
structure AttachmentRec where
  id : Int
  name : String
  content_type : String
  size : Nat
  created_at : String
  attachment_url : String
deriving DecidableEq

/-- Raw upstream conversation payload: the fields the conversations route reads. -/
structure RawConv where
  id : Int
  body : Option String
  body_text : Option String
  from_email : Option String
  to_emails : Option (List String)
  cc_emails : Option (List String)
  bcc_emails : Option (List String)
  created_at : Option String
  updated_at : Option String
  incoming : Option Bool
  privateFlag : Option Bool
  userName : Option String
  userEmail : Option String
  userAvatar : Option String
  attachments : Option (List AttachmentRec)
deriving DecidableEq

/-- Normalized conversation author sub-record. -/
structure ConvUser where
  name : String
  email : String
  avatar : Option String
deriving DecidableEq

/-- Normalized conversation record (the conversations route's output shape).
`privateFlag` models the source's `private` field. -/
structure Conv where
  id : Int
  body : Option String
  body_text : Option String
  from_email : Option String
  to_emails : List String
  cc_emails : List String
  bcc_emails : List String
  created_at : Option String
  updated_at : Option String
  incoming : Bool
  privateFlag : Bool
  user : ConvUser
  attachments : List AttachmentRec
deriving DecidableEq

/-- `email.split("@")[0]`: the text before the first `@` (the whole string when
there is no `@`). -/
def localPart (e : String) : String :=
  String.mk (e.data.takeWhile (fun c => c ≠ '@'))

/-- Author name resolution from the conversations route:
`conv.user?.name || conv.from_email?.split("@")[0] || "Unknown"`. -/
def authorName (userName fromEmail : Option String) : String :=
  jsOrS userName (jsOrS (fromEmail.map localPart) "Unknown")

/-- The conversations route's per-conversation transformation. -/
def transformConv (c : RawConv) : Conv :=
  { id := c.id
    body := c.body
    body_text := c.body_text
    from_email := c.from_email
    to_emails := c.to_emails.getD []
    cc_emails := c.cc_emails.getD []
    bcc_emails := c.bcc_emails.getD []
    created_at := c.created_at
    updated_at := c.updated_at
    incoming := c.incoming.getD false
    privateFlag := c.privateFlag.getD false
    user :=
      { name := authorName c.userName c.from_email
        email := jsOrS c.from_email (jsOrS c.userEmail "")
        avatar := jsOrNull c.userAvatar }
    attachments := c.attachments.getD [] }

/-- Outcome of one upstream `fetch`: a 2xx response carrying parsed data, a
non-2xx response carrying status code, status text and body text, an aborted
(timed out) request, or a transport-level failure. -/
inductive UpstreamOutcome (α : Type) where
  | ok (data : α)
  | http (status : Nat) (statusText : String) (body : String)
  | timeout
  | networkFail
deriving DecidableEq

/-- `FreshdeskAPI.getTicket`: maps the upstream outcome to either the raw
payload or the exact error message thrown by the client. -/
def getTicketExc (tid : Int) : UpstreamOutcome RawTicket → Except String RawTicket
  | .ok d => .ok d
  | .http 404 _ _ => .error ("Ticket #" ++ toString tid ++ " not found")
  | .http 401 _ _ => .error "Authentication failed - check your API key and domain"
  | .http s st b =>
    .error ("Failed to fetch ticket: " ++ toString s ++ " " ++ st ++ " - " ++ b)
  | .timeout => .error "Request timeout - Freshdesk API took too long to respond"
  | .networkFail =>
    .error "Network error - Unable to connect to Freshdesk API. Check your domain and network connectivity."

/-- `FreshdeskAPI.getConversations`: same shape as `getTicketExc` with the
conversations-specific messages. -/
def getConversationsExc (tid : Int) :
    UpstreamOutcome (List RawConv) → Except String (List RawConv)
  | .ok d => .ok d
  | .http 401 _ _ => .error "Authentication failed - check your API key and domain"
  | .http 404 _ _ =>
    .error ("Ticket #" ++ toString tid ++ " not found or no conversations available")
  | .http s st b =>
    .error ("Failed to fetch conversations: " ++ toString s ++ " " ++ st ++ " - " ++ b)
  | .timeout => .error "Request timeout - Freshdesk API took too long to respond"
  | .networkFail =>
    .error "Network error - Unable to connect to Freshdesk API. Check your domain and network connectivity."

/-- Single-quote character (written via its code point to keep literals simple). -/
def squote : Char := Char.ofNat 39

/-- Double-quote character. -/
def dquote : Char := Char.ofNat 34

/-- Is `c` one of the quote characters the filename regex recognizes? -/
def isQuoteChar (c : Char) : Bool := c = squote || c = dquote

/-- Character class `[^;=\n]` from the filename regex. -/
def notSemiEqNl (c : Char) : Bool := !(c = ';' || c = '=' || c = '\n')

/-- Character class `[^;\n]` from the filename regex. -/
def notSemiNl (c : Char) : Bool := !(c = ';' || c = '\n')

/-- Lazy scan `.*?q` for the closing quote `q`: returns the content before the
nearest closing quote and the remainder, failing on a line break (which `.`
does not match) or when no closing quote exists. -/
def takeUntilQuote (q : Char) : List Char → Option (List Char × List Char)
  | [] => none
  | c :: cs =>
    if c = q then some ([], cs)
    else if c = '\n' || c = '\r' then none
    else
      match takeUntilQuote q cs with
      | some (content, rest) => some (c :: content, rest)
      | none => none

/-- The capture group `((['"]).*?\2|[^;\n]*)` of the filename regex, applied to
the text after the `=`: a quoted value when a matching close quote exists,
otherwise the longest run without `;` or a line break. -/
def filenameValue : List Char → List Char
  | [] => []
  | c :: cs =>
    if isQuoteChar c then
      match takeUntilQuote c cs with
      | some (content, _) => c :: content ++ [c]
      | none => (c :: cs).takeWhile notSemiNl
    else (c :: cs).takeWhile notSemiNl

/-- The literal `filename` searched for by the regex. -/
def fnLit : List Char := "filename".data

/-- Leftmost match of `/filename[^;=\n]*=((['"]).*?\2|[^;\n]*)/`: returns
capture group 1.  When an occurrence of `filename` is not followed (after the
`[^;=\n]*` run) by `=`, the scan continues at the next position, as the JS
regex engine does. -/
def findFilenameMatch : List Char → Option (List Char)
  | [] => none
  | c :: cs =>
    if fnLit.isPrefixOf (c :: cs) then
      match (c :: cs).drop fnLit.length |>.dropWhile notSemiEqNl with
      | '=' :: rest => some (filenameValue rest)
      | _ => findFilenameMatch cs
    else findFilenameMatch cs

/-- `filenameMatch[1].replace(/['"]/g, "")`: strip every quote character. -/
def stripQuotes (l : List Char) : List Char := l.filter (fun c => !(isQuoteChar c))

/-- The filename computed by `FreshdeskAPI.getAttachment` from the (possibly
absent) content-disposition header: the quote-stripped capture group when the
regex matches, otherwise `attachment_{id}`. -/
def attachmentFilename (cd : Option String) (aid : Int) : String :=
  match findFilenameMatch (cd.getD "").data with
  | some g1 => String.mk (stripQuotes g1)
  | none => "attachment_" ++ toString aid

/-- Payload headers of a successful upstream attachment fetch. -/
structure AttachPayload where
  contentType : Option String
  contentDisposition : Option String
deriving DecidableEq

/-- `FreshdeskAPI.getAttachment`: on success returns content type (defaulted to
`application/octet-stream`) and the extracted filename.  Errors thrown inside
the `try` block are re-wrapped by the `catch` with a
`Failed to fetch attachment: ` prefix (so the generic branch carries it twice). -/
def getAttachmentExc (aid : Int) :
    UpstreamOutcome AttachPayload → Except String (String × String)
  | .ok p =>
    .ok (p.contentType.getD "application/octet-stream",
         attachmentFilename p.contentDisposition aid)
  | .http 404 _ _ =>
    .error ("Failed to fetch attachment: Attachment " ++ toString aid ++ " not found")
  | .http 401 _ _ =>
    .error "Failed to fetch attachment: Authentication failed - check your API key"
  | .http s st b =>
    .error ("Failed to fetch attachment: Failed to fetch attachment: " ++
      toString s ++ " " ++ st ++ " - " ++ b)
  | .timeout => .error "Attachment download timeout - file took too long to download"
  | .networkFail =>
    .error "Network error - Unable to connect to Freshdesk for attachment download"

/-- `FreshdeskAPI.searchTickets`: a non-2xx response throws
`Failed to search tickets: {statusText}`; an abort or transport failure
propagates unmapped (its `catch` clause just rethrows), modelled by the raw
runtime messages. -/
def searchTicketsExc : UpstreamOutcome Unit → Except String Unit
  | .ok d => .ok d
  | .http _ st _ => .error ("Failed to search tickets: " ++ st)
  | .timeout => .error "The operation was aborted"
  | .networkFail => .error "fetch failed"

/-- One upstream network call performed by a route handler. -/
inductive UpCall where
  | ticket (id : Int)
  | conversations (id : Int)
  | attachment (id : Int)
  | search (q : String)
deriving DecidableEq

/-- Result of a route handler: HTTP status, the `error` and `details` fields of
an error JSON body (absent on success), the success body, and the list of
upstream calls the handler performed, in order. -/
structure RouteResult (β : Type) where
  status : Nat
  error : Option String
  details : Option String
  body : Option β
  calls : List UpCall
deriving DecidableEq

/-- The ticket route handler (`GET /api/freshdesk/tickets/[id]`): parse the id
(`!ticketId` rejects `NaN` and `0`), validate configuration (empty or
placeholder values), call the upstream client, transform the payload, and map
a thrown error to 404 when its message contains `"404"`, else 500. -/
def ticketRoute (cfg : FreshdeskConfig) (idStr : String)
    (upT : Int → UpstreamOutcome RawTicket) : RouteResult Ticket :=
  match jsParseInt idStr with
  | none =>
    { status := 400, error := some "Invalid ticket ID", details := none,
      body := none, calls := [] }
  | some tid =>
    if tid = 0 then
      { status := 400, error := some "Invalid ticket ID", details := none,
        body := none, calls := [] }
    else if cfg.domain = "" ∨ cfg.domain = "your-domain" then
      { status := 500, error := some "Configuration Error",
        details := some "FRESHDESK_DOMAIN environment variable is not set. Please add it in Project Settings.",
        body := none, calls := [] }
    else if cfg.apiKey = "" ∨ cfg.apiKey = "your-api-key" then
      { status := 500, error := some "Configuration Error",
        details := some "FRESHDESK_API_KEY environment variable is not set. Please add it in Project Settings.",
        body := none, calls := [] }
    else
      match getTicketExc tid (upT tid) with
      | .ok raw =>
        { status := 200, error := none, details := none,
          body := some (transformTicket raw), calls := [.ticket tid] }
      | .error msg =>
        if strContains msg "404" then
          { status := 404, error := some "Ticket Not Found",
            details := some ("Ticket #" ++ toString tid ++ " does not exist or you don't have permission to access it."),
            body := none, calls := [.ticket tid] }
        else
          { status := 500, error := some "Failed to Fetch Ticket",
            details := some msg, body := none, calls := [.ticket tid] }

/-- The conversations route handler
(`GET /api/freshdesk/tickets/[id]/conversations`): identical validation to the
ticket route, then fetch, transform each conversation, and map a thrown error
to 404 when its message contains `"404"`, else 500. -/
def conversationsRoute (cfg : FreshdeskConfig) (idStr : String)
    (upC : Int → UpstreamOutcome (List RawConv)) : RouteResult (List Conv) :=
  match jsParseInt idStr with
  | none =>
    { status := 400, error := some "Invalid ticket ID", details := none,
      body := none, calls := [] }
  | some tid =>
    if tid = 0 then
      { status := 400, error := some "Invalid ticket ID", details := none,
        body := none, calls := [] }
    else if cfg.domain = "" ∨ cfg.domain = "your-domain" then
      { status := 500, error := some "Configuration Error",
        details := some "FRESHDESK_DOMAIN environment variable is not set. Please add it in Project Settings.",
        body := none, calls := [] }
    else if cfg.apiKey = "" ∨ cfg.apiKey = "your-api-key" then
      { status := 500, error := some "Configuration Error",
        details := some "FRESHDESK_API_KEY environment variable is not set. Please add it in Project Settings.",
        body := none, calls := [] }
    else
      match getConversationsExc tid (upC tid) with
      | .ok raws =>
        { status := 200, error := none, details := none,
          body := some (raws.map transformConv), calls := [.conversations tid] }
      | .error msg =>
        if strContains msg "404" then
          { status := 404, error := some "Conversations Not Found",
            details := some ("No conversations found for ticket #" ++ toString tid ++ " or you don't have permission to access them."),
            body := none, calls := [.conversations tid] }
        else
          { status := 500, error := some "Failed to Fetch Conversations",
            details := some msg, body := none, calls := [.conversations tid] }

/-- The filename placed in the proxy's `Content-Disposition` header:
`filename || requestedFilename || attachment_{id}`.  `filename` is what
`getAttachment` extracted (already defaulted to `attachment_{id}` when the
header is absent), so the query-string filename only matters when the header
yields an empty extracted name. -/
def finalFilename (cd : Option String) (queryFilename : Option String) (aid : Int) : String :=
  jsOr2 (attachmentFilename cd aid) (jsOrS queryFilename ("attachment_" ++ toString aid))

/-- The attachment proxy route handler (`GET /api/freshdesk/attachments/[id]`).
Its configuration check only tests that the two environment variables are
non-empty — unlike the ticket/conversations routes it does not compare against
the placeholder sentinels.  Any upstream failure maps to a single 500 shape.
The success body carries the response's content type and resolved filename. -/
def attachmentRoute (cfg : FreshdeskConfig) (idStr : String)
    (queryFilename : Option String)
    (upA : Int → UpstreamOutcome AttachPayload) : RouteResult (String × String) :=
  match jsParseInt idStr with
  | none =>
    { status := 400, error := some "Invalid attachment ID", details := none,
      body := none, calls := [] }
  | some aid =>
    if aid = 0 then
      { status := 400, error := some "Invalid attachment ID", details := none,
        body := none, calls := [] }
    else if cfg.domain = "" ∨ cfg.apiKey = "" then
      { status := 500, error := some "Freshdesk configuration missing",
        details := some "FRESHDESK_DOMAIN or FRESHDESK_API_KEY not configured",
        body := none, calls := [] }
    else
      match getAttachmentExc aid (upA aid) with
      | .ok ctfn =>
        { status := 200, error := none, details := none,
          body := some (ctfn.1, jsOr2 ctfn.2 (jsOrS queryFilename ("attachment_" ++ toString aid))),
          calls := [.attachment aid] }
      | .error msg =>
        { status := 500, error := some "Failed to download attachment",
          details := some msg, body := none, calls := [.attachment aid] }

/-- Does the trimmed query consist only of digits (`/^\d+$/`)?  The search
route applies this before `parseInt(query, 10)`. -/
def allDigits (s : String) : Bool := s.data ≠ [] && s.data.all isDigitChar

/-- The literal `/tickets/` searched for by the URL regex. -/
def ticketsLit : List Char := "/tickets/".data

/-- Leftmost match of `/\/tickets\/(\d+)/`: the maximal digit run following an
occurrence of `/tickets/` that is followed by at least one digit. -/
def extractTicketIdFromUrl : List Char → Option Nat
  | [] => none
  | c :: cs =>
    if ticketsLit.isPrefixOf (c :: cs) then
      match (c :: cs).drop ticketsLit.length |>.takeWhile isDigitChar with
      | [] => extractTicketIdFromUrl cs
      | d :: ds => some (digitsValBase 10 (d :: ds))
    else extractTicketIdFromUrl cs

/-- The search route handler (`GET /api/freshdesk/search`).  Note it performs
no configuration validation at all: the configuration only shapes the upstream
URL, not the handler's control flow, so it is not a parameter here.  For
`type=domain` one search call is made; otherwise a ticket id is extracted and
checked with `if (!ticketId)` — which rejects both a failed extraction (`null`)
and the falsy extracted id 0 with a 400 — then ticket plus conversations are
fetched together (`Promise.all`), an error being mapped to 404 when its
message contains `"not found"`, else 500. -/
def searchRoute (q ty : Option String)
    (upS : String → UpstreamOutcome Unit)
    (upT : Int → UpstreamOutcome RawTicket)
    (upC : Int → UpstreamOutcome (List RawConv)) : RouteResult Unit :=
  match q with
  | none =>
    { status := 400, error := some "Search query is required", details := none,
      body := none, calls := [] }
  | some query =>
    if query = "" then
      { status := 400, error := some "Search query is required", details := none,
        body := none, calls := [] }
    else if ty = some "domain" then
      match searchTicketsExc (upS ("requester_email:*@" ++ query)) with
      | .ok _ =>
        { status := 200, error := none, details := none, body := some (),
          calls := [.search ("requester_email:*@" ++ query)] }
      | .error e =>
        { status := 500, error := some "Failed to search tickets by domain",
          details := some e, body := none,
          calls := [.search ("requester_email:*@" ++ query)] }
    else
      match
        (if ty = some "url" then (extractTicketIdFromUrl query.data).map Int.ofNat
         else if allDigits query then some (Int.ofNat (digitsValBase 10 query.data))
         else none) with
      | none =>
        { status := 400, error := some "Could not extract ticket ID from input",
          details := some "Please provide a valid ticket number or Freshdesk URL",
          body := none, calls := [] }
      | some tid =>
        if tid = 0 then
          { status := 400, error := some "Could not extract ticket ID from input",
            details := some "Please provide a valid ticket number or Freshdesk URL",
            body := none, calls := [] }
        else
          match getTicketExc tid (upT tid), getConversationsExc tid (upC tid) with
          | .ok _, .ok _ =>
            { status := 200, error := none, details := none, body := some (),
              calls := [.ticket tid, .conversations tid] }
          | .error e, _ =>
            if strContains e "not found" then
              { status := 404, error := some "Ticket not found", details := some e,
                body := none, calls := [.ticket tid, .conversations tid] }
            else
              { status := 500, error := some "Failed to search ticket", details := some e,
                body := none, calls := [.ticket tid, .conversations tid] }
          | _, .error e =>
            if strContains e "not found" then
              { status := 404, error := some "Ticket not found", details := some e,
                body := none, calls := [.ticket tid, .conversations tid] }
            else
              { status := 500, error := some "Failed to search ticket", details := some e,
                body := none, calls := [.ticket tid, .conversations tid] }

/-- Default status text a Next.js response would carry for the route's status
codes (used by the client helpers' fallback messages). -/
def statusTextOf : Nat → String
  | 400 => "Bad Request"
  | 404 => "Not Found"
  | 500 => "Internal Server Error"
  | _ => ""

/-- The dashboard's `fetchTicketDetails`: a non-2xx response throws (404 with a
specific message, otherwise the body's `details` or a status-text fallback);
a 2xx response yields the ticket. -/
def fetchTicketDetails (tid : Int) (r : RouteResult Ticket) : Except String Ticket :=
  if r.status < 200 ∨ 300 ≤ r.status then
    if r.status = 404 then .error ("Ticket #" ++ toString tid ++ " not found")
    else .error (jsOrS r.details ("Failed to fetch ticket: " ++ statusTextOf r.status))
  else
    match r.body with
    | some t => .ok t
    | none => .error "Unknown error"

/-- The dashboard's `fetchConversations`: a 404 response yields the empty
list, any other non-2xx response throws, a 2xx response yields the list. -/
def fetchConversationsClient (r : RouteResult (List Conv)) : Except String (List Conv) :=
  if r.status < 200 ∨ 300 ≤ r.status then
    if r.status = 404 then .ok []
    else .error (jsOrS r.details ("Failed to fetch conversations: " ++ statusTextOf r.status))
  else
    match r.body with
    | some cs => .ok cs
    | none => .error "Unknown error"

/-- State the `useFreshdeskData` hook exposes to the dashboard after loading. -/
structure ViewState where
  ticket : Option Ticket
  conversations : List Conv
  error : Option String
deriving DecidableEq

/-- The hook's `loadData`: a ticket failure sets the view error and clears
everything; a conversations failure is caught locally and degrades to the
empty list without touching the error. -/
def loadData (tRes : Except String Ticket) (cRes : Except String (List Conv)) : ViewState :=
  match tRes with
  | .error e => { ticket := none, conversations := [], error := some e }
  | .ok t =>
    match cRes with
    | .ok cs => { ticket := some t, conversations := cs, error := none }
    | .error _ => { ticket := some t, conversations := [], error := none }

/-- End-to-end dashboard view for one ticket id: the component interpolates its
numeric id into the two request paths; here the resulting path parameter is the
string `idStr`, fed to both route handlers. -/
def dashboardView (cfg : FreshdeskConfig) (idStr : String) (tid : Int)
    (upT : Int → UpstreamOutcome RawTicket)
    (upC : Int → UpstreamOutcome (List RawConv)) : ViewState :=
  loadData (fetchTicketDetails tid (ticketRoute cfg idStr upT))
           (fetchConversationsClient (conversationsRoute cfg idStr upC))

/-- A well-formed configuration: non-empty and distinct from both placeholder
sentinels. -/
def configOK (cfg : FreshdeskConfig) : Prop :=
  cfg.domain ≠ "" ∧ cfg.domain ≠ "your-domain" ∧ cfg.apiKey ≠ "" ∧ cfg.apiKey ≠ "your-api-key"

instance (cfg : FreshdeskConfig) : Decidable (configOK cfg) := by
  unfold configOK; infer_instance

/-- A sample valid configuration used in concrete instantiations. -/
def goodCfg : FreshdeskConfig := { domain := "acme", apiKey := "secret" }

/-- A configuration holding both placeholder sentinels. -/
def placeholderCfg : FreshdeskConfig := { domain := "your-domain", apiKey := "your-api-key" }

/-- A sample raw ticket payload used in concrete instantiations. -/
def sampleRawTicket : RawTicket :=
  { id := 1, subject := "s", description := some "d", description_text := some "dt",
    status := some 2, priority := some 1,
    requesterName := some "Alice", requesterEmail := some "alice@example.com",
    requesterPhone := none, requesterAvatar := none,
    responder_id := none, responderName := none, responderEmail := none,
    responderAvatar := none,
    created_at := "2024-01-01", updated_at := "2024-01-02", tags := none }

/-- A sample upstream ticket behaviour that always succeeds. -/
def sampleUpT : Int → UpstreamOutcome RawTicket := fun _ => .ok sampleRawTicket

/-- A sample upstream conversations behaviour that always succeeds with no
conversations. -/
def sampleUpC : Int → UpstreamOutcome (List RawConv) := fun _ => .ok []

/-- A sample upstream attachment behaviour with no headers. -/
def sampleUpA : Int → UpstreamOutcome AttachPayload :=
  fun _ => .ok { contentType := none, contentDisposition := none }

/-- When the pattern does not occur in the list, `replaceFirst` is the identity. -/
theorem replaceFirst_of_not_contains (pat : List Char) :
    ∀ l : List Char, containsSub pat l = false → replaceFirst pat l = l := by
  intro l
  induction l with
  | nil => intro _; rfl
  | cons c cs ih =>
    intro h
    unfold containsSub at h
    rw [Bool.or_eq_false_iff] at h
    unfold replaceFirst
    simp only [h.1, Bool.false_eq_true, if_false]
    rw [ih h.2]

/-- The suffix `.freshdesk.com` is aperiodic: no proper nonempty prefix of it
extends to a full occurrence when the suffix is appended. -/
theorem fdSuffix_no_period :
    ∀ k, k < 14 → 0 < k → fdSuffix.isPrefixOf (fdSuffix.take k ++ fdSuffix) = false := by
  decide

/-- If the suffix is not a prefix of the nonempty list `r`, it cannot start
inside `r` and complete into an appended copy of itself. -/
theorem fdSuffix_not_prefix_append (r : List Char) (hr : r ≠ [])
    (h : fdSuffix.isPrefixOf r = false) :
    fdSuffix.isPrefixOf (r ++ fdSuffix) = false := by
  by_contra hc
  rw [Bool.not_eq_false, List.isPrefixOf_iff_prefix] at hc
  have hlen : fdSuffix.length = 14 := by decide
  by_cases hr14 : 14 ≤ r.length
  · have hEq : fdSuffix = (r ++ fdSuffix).take fdSuffix.length :=
      List.prefix_iff_eq_take.mp hc
    rw [List.take_append_eq_append_take] at hEq
    have h0 : fdSuffix.length - r.length = 0 := by omega
    rw [h0, List.take_zero, List.append_nil] at hEq
    have hpre : fdSuffix <+: r := by rw [hEq]; exact List.take_prefix _ _
    rw [← List.isPrefixOf_iff_prefix, h] at hpre
    exact Bool.false_ne_true hpre
  · push_neg at hr14
    have hEq : fdSuffix = (r ++ fdSuffix).take fdSuffix.length :=
      List.prefix_iff_eq_take.mp hc
    rw [List.take_append_eq_append_take, List.take_of_length_le (by omega)] at hEq
    have hr_take : fdSuffix.take r.length = r := by
      have h2 := congrArg (List.take r.length) hEq
      rw [List.take_append_eq_append_take, Nat.sub_self, List.take_zero,
        List.append_nil, List.take_length] at h2
      exact h2
    have hk : fdSuffix.isPrefixOf (fdSuffix.take r.length ++ fdSuffix) = true := by
      rw [List.isPrefixOf_iff_prefix, hr_take]
      exact hc
    have hfalse := fdSuffix_no_period r.length (by omega) (List.length_pos.mpr hr)
    rw [hk] at hfalse
    exact Bool.false_ne_true hfalse.symm

/-- Removing the first occurrence of the suffix from `l ++ suffix` recovers `l`
whenever `l` itself does not contain the suffix. -/
theorem replaceFirst_append_fdSuffix :
    ∀ l : List Char, containsSub fdSuffix l = false →
    replaceFirst fdSuffix (l ++ fdSuffix) = l := by
  intro l
  induction l with
  | nil => intro _; decide
  | cons c cs ih =>
    intro h
    unfold containsSub at h
    rw [Bool.or_eq_false_iff] at h
    have hnp := fdSuffix_not_prefix_append (c :: cs) (by simp) h.1
    rw [List.cons_append] at hnp
    rw [List.cons_append]
    unfold replaceFirst
    simp only [hnp, Bool.false_eq_true, if_false]
    rw [ih h.2]

/-- C9: base-URL construction is insensitive to whether the configured domain
carries the known suffix: for every domain string not containing
`.freshdesk.com`, constructing the client from `d` and from
`d ++ ".freshdesk.com"` yields the same base URL, namely
`https://{d}.freshdesk.com/api/v2`. -/
theorem baseUrl_suffix_insensitive :
    ∀ d : String, containsSub fdSuffix d.data = false →
    baseUrl (d ++ ".freshdesk.com") = baseUrl d ∧
    baseUrl d = "https://" ++ d ++ ".freshdesk.com/api/v2" := by
  intro d h
  obtain ⟨l⟩ := d
  have h1 : cleanDomain ⟨l⟩ = ⟨l⟩ := by
    unfold cleanDomain
    rw [replaceFirst_of_not_contains _ _ h]
  have h2 : cleanDomain (String.mk l ++ ".freshdesk.com") = ⟨l⟩ := by
    unfold cleanDomain
    show String.mk (replaceFirst fdSuffix (l ++ fdSuffix)) = ⟨l⟩
    rw [replaceFirst_append_fdSuffix l h]
  unfold baseUrl
  rw [h1, h2]
  exact ⟨rfl, rfl⟩

/-- C9 witness: instantiated at the domain `mycompany`. -/
theorem baseUrl_suffix_insensitive_witness :
    baseUrl ("mycompany" ++ ".freshdesk.com") = baseUrl "mycompany" ∧
    baseUrl "mycompany" = "https://" ++ "mycompany" ++ ".freshdesk.com/api/v2" :=
  baseUrl_suffix_insensitive "mycompany" (by decide)

/-- C4: status normalization maps 2 to open, 3 to pending, 4 to resolved, 5 to
closed, and any other integer or a missing value to open. -/
theorem normalizeStatus_spec :
    normalizeStatus (some 2) = "open" ∧ normalizeStatus (some 3) = "pending" ∧
    normalizeStatus (some 4) = "resolved" ∧ normalizeStatus (some 5) = "closed" ∧
    normalizeStatus none = "open" ∧
    ∀ n : Int, n ≠ 2 → n ≠ 3 → n ≠ 4 → n ≠ 5 → normalizeStatus (some n) = "open" := by
  refine ⟨by decide, by decide, by decide, by decide, by decide, ?_⟩
  intro n h2 h3 h4 h5
  simp [normalizeStatus, h2, h3, h4, h5]

/-- C4 witness: the out-of-range code 7 normalizes to open. -/
theorem normalizeStatus_spec_witness : normalizeStatus (some 7) = "open" :=
  normalizeStatus_spec.2.2.2.2.2 7 (by decide) (by decide) (by decide) (by decide)

/-- C5: priority normalization maps 1 to low, 2 to medium, 3 to high, 4 to
urgent, and any other value (including missing) to medium. -/
theorem normalizePriority_spec :
    normalizePriority (some 1) = "low" ∧ normalizePriority (some 2) = "medium" ∧
    normalizePriority (some 3) = "high" ∧ normalizePriority (some 4) = "urgent" ∧
    normalizePriority none = "medium" ∧
    ∀ p : Int, p ≠ 1 → p ≠ 2 → p ≠ 3 → p ≠ 4 → normalizePriority (some p) = "medium" := by
  refine ⟨by decide, by decide, by decide, by decide, by decide, ?_⟩
  intro p h1 h2 h3 h4
  simp [normalizePriority, h1, h2, h3, h4]

/-- C5 witness: the out-of-range code 9 normalizes to medium. -/
theorem normalizePriority_spec_witness : normalizePriority (some 9) = "medium" :=
  normalizePriority_spec.2.2.2.2.2 9 (by decide) (by decide) (by decide) (by decide)

/-- C8: conversation author name resolution prefers the explicit user name;
failing that (absent or empty), the local part of the sender email; failing
both, `Unknown`.  In particular `jane@example.com` with no display name
resolves to `jane`. -/
theorem authorName_spec :
    (∀ (n : String) (f : Option String), n ≠ "" → authorName (some n) f = n) ∧
    (∀ (u : Option String) (e : String), (u = none ∨ u = some "") →
      localPart e ≠ "" → authorName u (some e) = localPart e) ∧
    (∀ u : Option String, (u = none ∨ u = some "") → authorName u none = "Unknown") ∧
    authorName none (some "jane@example.com") = "jane" := by
  refine ⟨?_, ?_, ?_, by decide⟩
  · intro n f hn
    simp [authorName, jsOrS, hn]
  · intro u e hu he
    rcases hu with hu | hu <;> subst hu <;> simp [authorName, jsOrS, he]
  · intro u hu
    rcases hu with hu | hu <;> subst hu <;> simp [authorName, jsOrS]

/-- C8 witness: concrete instantiations of the three resolution cases. -/
theorem authorName_spec_witness :
    authorName (some "Alice") (some "jane@example.com") = "Alice" ∧
    authorName none (some "jane@example.com") = localPart "jane@example.com" ∧
    authorName (some "") none = "Unknown" :=
  ⟨authorName_spec.1 "Alice" (some "jane@example.com") (by decide),
   authorName_spec.2.1 none "jane@example.com" (Or.inl rfl) (by decide),
   authorName_spec.2.2.1 (some "") (Or.inr rfl)⟩

/-- C2: an identifier string that does not parse (`parseInt` yields `NaN`) or
parses to zero is rejected with status 400 by the ticket, conversations and
attachment routes, with no upstream call performed. -/
theorem invalidId_rejected_no_call :
    ∀ idStr : String, (jsParseInt idStr = none ∨ jsParseInt idStr = some 0) →
    ∀ (cfg : FreshdeskConfig) (upT : Int → UpstreamOutcome RawTicket)
      (upC : Int → UpstreamOutcome (List RawConv)) (qf : Option String)
      (upA : Int → UpstreamOutcome AttachPayload),
    (ticketRoute cfg idStr upT).status = 400 ∧ (ticketRoute cfg idStr upT).calls = [] ∧
    (conversationsRoute cfg idStr upC).status = 400 ∧
    (conversationsRoute cfg idStr upC).calls = [] ∧
    (attachmentRoute cfg idStr qf upA).status = 400 ∧
    (attachmentRoute cfg idStr qf upA).calls = [] := by
  intro idStr h cfg upT upC qf upA
  rcases h with h | h <;>
    simp [ticketRoute, conversationsRoute, attachmentRoute, h]

/-- C2 witness: the non-numeric id `abc` and the zero id `0`. -/
theorem invalidId_rejected_no_call_witness :
    ((ticketRoute goodCfg "abc" sampleUpT).status = 400 ∧
     (ticketRoute goodCfg "abc" sampleUpT).calls = []) ∧
    ((attachmentRoute goodCfg "0" none sampleUpA).status = 400 ∧
     (attachmentRoute goodCfg "0" none sampleUpA).calls = []) := by
  have h1 := invalidId_rejected_no_call "abc" (Or.inl (by decide)) goodCfg sampleUpT
    sampleUpC none sampleUpA
  have h2 := invalidId_rejected_no_call "0" (Or.inr (by decide)) goodCfg sampleUpT
    sampleUpC none sampleUpA
  exact ⟨⟨h1.1, h1.2.1⟩, ⟨h2.2.2.2.2.1, h2.2.2.2.2.2⟩⟩

/-- C7 counterexample: a raw payload with `responder_id` present (equal to 0,
which is falsy in JS) and no responder name normalizes to a ticket with NO
agent sub-record, so the agent name is not `Unassigned` as the claim states. -/
theorem transformTicket_agent_counterexample :
    ({ sampleRawTicket with responder_id := some 0 } : RawTicket).responder_id = some 0 ∧
    ({ sampleRawTicket with responder_id := some 0 } : RawTicket).responderName = none ∧
    (transformTicket { sampleRawTicket with responder_id := some 0 }).agent = none := by
  decide

/-- C7 amended: a payload with `responder_id` absent normalizes to a ticket
with no agent sub-record; with `responder_id` present AND NON-ZERO but no
responder name, the agent name is `Unassigned`. -/
theorem transformTicket_agent_amended :
    (∀ t : RawTicket, t.responder_id = none → (transformTicket t).agent = none) ∧
    (∀ (t : RawTicket) (rid : Int), t.responder_id = some rid → rid ≠ 0 →
      t.responderName = none →
      (transformTicket t).agent =
        some { name := "Unassigned", email := jsOrS t.responderEmail "",
               avatar := t.responderAvatar }) := by
  constructor
  · intro t h
    simp [transformTicket, h]
  · intro t rid h hrid hname
    simp [transformTicket, h, hrid, hname, jsOrS]

/-- C7 witness: concrete instantiations of both amended cases. -/
theorem transformTicket_agent_amended_witness :
    (transformTicket sampleRawTicket).agent = none ∧
    (transformTicket { sampleRawTicket with responder_id := some 3 }).agent =
      some { name := "Unassigned", email := "", avatar := none } := by
  constructor
  · exact transformTicket_agent_amended.1 sampleRawTicket rfl
  · have h := transformTicket_agent_amended.2
      { sampleRawTicket with responder_id := some 3 } 3 rfl (by decide) rfl
    simpa [jsOrS] using h

/-- A name starting with the literal `attachment_` is never the empty string. -/
theorem attachment_name_ne_empty (s : String) : ("attachment_" ++ s) ≠ "" := by
  intro h
  obtain ⟨l⟩ := s
  exact List.noConfusion (congrArg String.data h)

/-- C6 counterexample: with NO content-disposition header and an explicit
query-string filename `report.pdf`, the resolved filename is `attachment_7`,
not the query-string filename: `getAttachment` already substitutes the
`attachment_{id}` fallback (a non-empty, hence truthy, string) before the
proxy's `filename || requestedFilename || ...` chain runs, so the
query-string filename is unreachable when the header is absent. -/
theorem finalFilename_counterexample :
    (attachmentRoute goodCfg "7" (some "report.pdf") sampleUpA).body =
      some ("application/octet-stream", "attachment_7") ∧
    finalFilename none (some "report.pdf") 7 = "attachment_7" ∧
    ("attachment_7" : String) ≠ "report.pdf" := by
  decide

/-- C6 amended: given a content-disposition header with a quoted or unquoted
`filename=report.pdf`, the resolved filename is `report.pdf` (whatever the
query string says); given no header, the filename is `attachment_{id}`
regardless of any query-string filename; the query-string filename is used
only when a header is present but yields an empty extracted filename. -/
theorem finalFilename_amended :
    (∀ q : Option String,
      finalFilename (some "attachment; filename=\"report.pdf\"") q 7 = "report.pdf") ∧
    (∀ q : Option String,
      finalFilename (some "attachment; filename=report.pdf") q 7 = "report.pdf") ∧
    (∀ (q : Option String) (aid : Int),
      finalFilename none q aid = "attachment_" ++ toString aid) ∧
    finalFilename (some "attachment; filename=\"\"") (some "query.pdf") 7 = "query.pdf" ∧
    finalFilename (some "attachment; filename=\"\"") none 7 = "attachment_7" := by
  refine ⟨?_, ?_, ?_, by decide, by decide⟩
  · intro q
    show jsOr2 (attachmentFilename (some "attachment; filename=\"report.pdf\"") 7) _ = _
    rw [show attachmentFilename (some "attachment; filename=\"report.pdf\"") 7 = "report.pdf"
      from by decide]
    rw [jsOr2, if_neg (by decide)]
  · intro q
    show jsOr2 (attachmentFilename (some "attachment; filename=report.pdf") 7) _ = _
    rw [show attachmentFilename (some "attachment; filename=report.pdf") 7 = "report.pdf"
      from by decide]
    rw [jsOr2, if_neg (by decide)]
  · intro q aid
    have hfn : attachmentFilename none aid = "attachment_" ++ toString aid := rfl
    show jsOr2 (attachmentFilename none aid) _ = _
    rw [hfn, jsOr2, if_neg (attachment_name_ne_empty (toString aid))]

/-- After a valid (non-zero, parseable) id, the ticket route only ever returns
status 500, 200 or 404 — never 400. -/
theorem ticketRoute_status_of_valid (cfg : FreshdeskConfig) (idStr : String)
    (upT : Int → UpstreamOutcome RawTicket) (tid : Int)
    (h : jsParseInt idStr = some tid) (h0 : tid ≠ 0) :
    (ticketRoute cfg idStr upT).status = 500 ∨ (ticketRoute cfg idStr upT).status = 200 ∨
    (ticketRoute cfg idStr upT).status = 404 := by
  simp only [ticketRoute, h]
  rw [if_neg h0]
  split
  · left; rfl
  split
  · left; rfl
  split
  · right; left; rfl
  split
  · right; right; rfl
  · left; rfl

/-- After a valid id, the conversations route only ever returns status 500,
200 or 404. -/
theorem conversationsRoute_status_of_valid (cfg : FreshdeskConfig) (idStr : String)
    (upC : Int → UpstreamOutcome (List RawConv)) (tid : Int)
    (h : jsParseInt idStr = some tid) (h0 : tid ≠ 0) :
    (conversationsRoute cfg idStr upC).status = 500 ∨
    (conversationsRoute cfg idStr upC).status = 200 ∨
    (conversationsRoute cfg idStr upC).status = 404 := by
  simp only [conversationsRoute, h]
  rw [if_neg h0]
  split
  · left; rfl
  split
  · left; rfl
  split
  · right; left; rfl
  split
  · right; right; rfl
  · left; rfl

/-- After a valid id, the attachment route only ever returns status 500 or 200. -/
theorem attachmentRoute_status_of_valid (cfg : FreshdeskConfig) (idStr : String)
    (qf : Option String) (upA : Int → UpstreamOutcome AttachPayload) (tid : Int)
    (h : jsParseInt idStr = some tid) (h0 : tid ≠ 0) :
    (attachmentRoute cfg idStr qf upA).status = 500 ∨
    (attachmentRoute cfg idStr qf upA).status = 200 := by
  simp only [attachmentRoute, h]
  rw [if_neg h0]
  split
  · left; rfl
  split
  · right; rfl
  · left; rfl

/-- C10: at the ticket, conversations and attachment-proxy endpoints, an
identifier string is rejected with status 400 exactly when `Number.parseInt`
of it yields `NaN` (modelled `none`) or 0; consequently a string whose leading
characters form a non-zero integer is accepted even with trailing non-digits
(`12abc` is forwarded upstream as ticket 12) and a negative identifier (`-5`)
is accepted and forwarded upstream. -/
theorem idValidation_iff :
    (∀ (cfg : FreshdeskConfig) (idStr : String) (upT : Int → UpstreamOutcome RawTicket),
      (ticketRoute cfg idStr upT).status = 400 ↔
        (jsParseInt idStr = none ∨ jsParseInt idStr = some 0)) ∧
    (∀ (cfg : FreshdeskConfig) (idStr : String)
        (upC : Int → UpstreamOutcome (List RawConv)),
      (conversationsRoute cfg idStr upC).status = 400 ↔
        (jsParseInt idStr = none ∨ jsParseInt idStr = some 0)) ∧
    (∀ (cfg : FreshdeskConfig) (idStr : String) (qf : Option String)
        (upA : Int → UpstreamOutcome AttachPayload),
      (attachmentRoute cfg idStr qf upA).status = 400 ↔
        (jsParseInt idStr = none ∨ jsParseInt idStr = some 0)) ∧
    (ticketRoute goodCfg "12abc" sampleUpT).calls = [UpCall.ticket 12] ∧
    (ticketRoute goodCfg "12abc" sampleUpT).status = 200 ∧
    (ticketRoute goodCfg "-5" sampleUpT).calls = [UpCall.ticket (-5)] ∧
    (ticketRoute goodCfg "-5" sampleUpT).status = 200 := by
  refine ⟨?_, ?_, ?_, by decide, by decide, by decide, by decide⟩
  · intro cfg idStr upT
    cases h : jsParseInt idStr with
    | none => simp [ticketRoute, h]
    | some tid =>
      by_cases h0 : tid = 0
      · subst h0; simp [ticketRoute, h]
      · constructor
        · intro hs
          rcases ticketRoute_status_of_valid cfg idStr upT tid h h0 with h' | h' | h' <;>
            rw [hs] at h' <;> exact absurd h' (by decide)
        · rintro (h' | h')
          · exact absurd h' (by simp)
          · rw [Option.some.injEq] at h'
            exact absurd h' h0
  · intro cfg idStr upC
    cases h : jsParseInt idStr with
    | none => simp [conversationsRoute, h]
    | some tid =>
      by_cases h0 : tid = 0
      · subst h0; simp [conversationsRoute, h]
      · constructor
        · intro hs
          rcases conversationsRoute_status_of_valid cfg idStr upC tid h h0 with h' | h' | h' <;>
            rw [hs] at h' <;> exact absurd h' (by decide)
        · rintro (h' | h')
          · exact absurd h' (by simp)
          · rw [Option.some.injEq] at h'
            exact absurd h' h0
  · intro cfg idStr qf upA
    cases h : jsParseInt idStr with
    | none => simp [attachmentRoute, h]
    | some tid =>
      by_cases h0 : tid = 0
      · subst h0; simp [attachmentRoute, h]
      · constructor
        · intro hs
          rcases attachmentRoute_status_of_valid cfg idStr qf upA tid h h0 with h' | h' <;>
            rw [hs] at h' <;> exact absurd h' (by decide)
        · rintro (h' | h')
          · exact absurd h' (by simp)
          · rw [Option.some.injEq] at h'
            exact absurd h' h0

/-- C1 counterexample: not every retrieval operation checks configuration.
The search route performs no configuration validation at all (its handler
never reads the configured values before calling upstream, which is why the
embedded `searchRoute` takes no configuration argument): searching for ticket
`123` performs two upstream calls and reports `Failed to search ticket`, not a
configuration error.  And the attachment proxy only tests emptiness, not the
placeholder sentinels: with both placeholders configured it still calls
upstream and answers 200. -/
theorem configError_counterexample :
    (searchRoute (some "123") none (fun _ => .networkFail) (fun _ => .networkFail)
        (fun _ => .networkFail)).calls = [UpCall.ticket 123, UpCall.conversations 123] ∧
    (searchRoute (some "123") none (fun _ => .networkFail) (fun _ => .networkFail)
        (fun _ => .networkFail)).error = some "Failed to search ticket" ∧
    (attachmentRoute placeholderCfg "7" none sampleUpA).status = 200 ∧
    (attachmentRoute placeholderCfg "7" none sampleUpA).calls = [UpCall.attachment 7] ∧
    (attachmentRoute placeholderCfg "7" none sampleUpA).error = none := by
  decide

/-- C1 amended: for the ticket and conversations routes, once the identifier
passes input validation, an empty or placeholder domain or API key yields
status 500 with error `Configuration Error` and no upstream call (hence
priority over ticket-not-found); the attachment proxy behaves likewise but
only detects EMPTY configuration values (not the placeholder sentinels); the
search route performs no configuration check (see the counterexample). -/
theorem configError_amended :
    (∀ (cfg : FreshdeskConfig) (idStr : String) (tid : Int)
        (upT : Int → UpstreamOutcome RawTicket),
      jsParseInt idStr = some tid → tid ≠ 0 →
      (cfg.domain = "" ∨ cfg.domain = "your-domain" ∨
       cfg.apiKey = "" ∨ cfg.apiKey = "your-api-key") →
      (ticketRoute cfg idStr upT).status = 500 ∧
      (ticketRoute cfg idStr upT).error = some "Configuration Error" ∧
      (ticketRoute cfg idStr upT).calls = []) ∧
    (∀ (cfg : FreshdeskConfig) (idStr : String) (tid : Int)
        (upC : Int → UpstreamOutcome (List RawConv)),
      jsParseInt idStr = some tid → tid ≠ 0 →
      (cfg.domain = "" ∨ cfg.domain = "your-domain" ∨
       cfg.apiKey = "" ∨ cfg.apiKey = "your-api-key") →
      (conversationsRoute cfg idStr upC).status = 500 ∧
      (conversationsRoute cfg idStr upC).error = some "Configuration Error" ∧
      (conversationsRoute cfg idStr upC).calls = []) ∧
    (∀ (cfg : FreshdeskConfig) (idStr : String) (aid : Int) (qf : Option String)
        (upA : Int → UpstreamOutcome AttachPayload),
      jsParseInt idStr = some aid → aid ≠ 0 →
      (cfg.domain = "" ∨ cfg.apiKey = "") →
      (attachmentRoute cfg idStr qf upA).status = 500 ∧
      (attachmentRoute cfg idStr qf upA).error = some "Freshdesk configuration missing" ∧
      (attachmentRoute cfg idStr qf upA).calls = []) := by
  refine ⟨?_, ?_, ?_⟩
  · intro cfg idStr tid upT h h0 hcfg
    simp only [ticketRoute, h]
    rw [if_neg h0]
    by_cases hd : cfg.domain = "" ∨ cfg.domain = "your-domain"
    · rw [if_pos hd]; exact ⟨rfl, rfl, rfl⟩
    · have hk : cfg.apiKey = "" ∨ cfg.apiKey = "your-api-key" := by tauto
      rw [if_neg hd, if_pos hk]; exact ⟨rfl, rfl, rfl⟩
  · intro cfg idStr tid upC h h0 hcfg
    simp only [conversationsRoute, h]
    rw [if_neg h0]
    by_cases hd : cfg.domain = "" ∨ cfg.domain = "your-domain"
    · rw [if_pos hd]; exact ⟨rfl, rfl, rfl⟩
    · have hk : cfg.apiKey = "" ∨ cfg.apiKey = "your-api-key" := by tauto
      rw [if_neg hd, if_pos hk]; exact ⟨rfl, rfl, rfl⟩
  · intro cfg idStr aid qf upA h h0 hcfg
    simp only [attachmentRoute, h]
    rw [if_neg h0, if_pos hcfg]
    exact ⟨rfl, rfl, rfl⟩

/-- C1 witness: the placeholder configuration with the valid id 5 on the
ticket route, and an empty-domain configuration on the attachment proxy. -/
theorem configError_amended_witness :
    ((ticketRoute placeholderCfg "5" sampleUpT).status = 500 ∧
     (ticketRoute placeholderCfg "5" sampleUpT).error = some "Configuration Error" ∧
     (ticketRoute placeholderCfg "5" sampleUpT).calls = []) ∧
    ((attachmentRoute { domain := "", apiKey := "secret" } "5" none sampleUpA).status = 500 ∧
     (attachmentRoute { domain := "", apiKey := "secret" } "5" none sampleUpA).error =
       some "Freshdesk configuration missing" ∧
     (attachmentRoute { domain := "", apiKey := "secret" } "5" none sampleUpA).calls = []) :=
  ⟨configError_amended.1 placeholderCfg "5" 5 sampleUpT (by decide) (by decide)
     (Or.inr (Or.inl rfl)),
   configError_amended.2.2 { domain := "", apiKey := "secret" } "5" 5 none sampleUpA
     (by decide) (by decide) (Or.inl rfl)⟩

/-- When the upstream conversations fetch answers 404 for the parsed ticket
id, the client-side conversations fetch never produces a non-empty list:
whatever the route maps the failure to (404 when the thrown message happens to
contain `404`, otherwise 500), the client yields `[]` or an error. -/
theorem convClient_empty (cfg : FreshdeskConfig) (idStr : String) (tid : Int)
    (upC : Int → UpstreamOutcome (List RawConv)) (st bd : String)
    (h : jsParseInt idStr = some tid) (h404 : upC tid = .http 404 st bd) :
    ∀ cs, fetchConversationsClient (conversationsRoute cfg idStr upC) = .ok cs →
    cs = [] := by
  intro cs hcs
  simp only [conversationsRoute, h] at hcs
  by_cases h0 : tid = 0
  · rw [if_pos h0] at hcs
    simp [fetchConversationsClient] at hcs
  · rw [if_neg h0] at hcs
    by_cases hd : cfg.domain = "" ∨ cfg.domain = "your-domain"
    · rw [if_pos hd] at hcs
      simp [fetchConversationsClient] at hcs
    · rw [if_neg hd] at hcs
      by_cases hk : cfg.apiKey = "" ∨ cfg.apiKey = "your-api-key"
      · rw [if_pos hk] at hcs
        simp [fetchConversationsClient] at hcs
      · rw [if_neg hk, h404] at hcs
        simp only [getConversationsExc] at hcs
        by_cases h4 : strContains
            ("Ticket #" ++ toString tid ++ " not found or no conversations available") "404"
        · rw [if_pos h4] at hcs
          simp [fetchConversationsClient] at hcs
          exact hcs
        · rw [if_neg h4] at hcs
          simp [fetchConversationsClient] at hcs

/-- C3: when the upstream service answers 404 for a conversations fetch, the
combined dashboard view holds the empty conversations list rather than a
propagated error; and the conversations outcome never affects the view's
ticket or error fields (a conversations failure cannot fail the view). -/
theorem conv404_degrades :
    (∀ (cfg : FreshdeskConfig) (idStr : String) (tid : Int)
        (upT : Int → UpstreamOutcome RawTicket)
        (upC : Int → UpstreamOutcome (List RawConv)) (st bd : String),
      jsParseInt idStr = some tid → upC tid = .http 404 st bd →
      (dashboardView cfg idStr tid upT upC).conversations = []) ∧
    (∀ (cfg : FreshdeskConfig) (idStr : String) (tid : Int)
        (upT : Int → UpstreamOutcome RawTicket)
        (upC upC' : Int → UpstreamOutcome (List RawConv)),
      (dashboardView cfg idStr tid upT upC).ticket =
        (dashboardView cfg idStr tid upT upC').ticket ∧
      (dashboardView cfg idStr tid upT upC).error =
        (dashboardView cfg idStr tid upT upC').error) := by
  constructor
  · intro cfg idStr tid upT upC st bd h h404
    simp only [dashboardView, loadData]
    cases ht : fetchTicketDetails tid (ticketRoute cfg idStr upT) with
    | error e => rfl
    | ok t =>
      cases hcv : fetchConversationsClient (conversationsRoute cfg idStr upC) with
      | error e => rfl
      | ok cs =>
        exact convClient_empty cfg idStr tid upC st bd h h404 cs hcv
  · intro cfg idStr tid upT upC upC'
    simp only [dashboardView, loadData]
    cases fetchTicketDetails tid (ticketRoute cfg idStr upT) with
    | error e => exact ⟨rfl, rfl⟩
    | ok t =>
      cases fetchConversationsClient (conversationsRoute cfg idStr upC) <;>
        cases fetchConversationsClient (conversationsRoute cfg idStr upC') <;>
          exact ⟨rfl, rfl⟩

/-- C3 witness: ticket 5 with an always-404 conversations upstream. -/
theorem conv404_degrades_witness :
    (dashboardView goodCfg "5" 5 sampleUpT
      (fun _ => .http 404 "Not Found" "")).conversations = [] ∧
    (dashboardView goodCfg "5" 5 sampleUpT (fun _ => .http 404 "Not Found" "")).error =
      (dashboardView goodCfg "5" 5 sampleUpT sampleUpC).error :=
  ⟨conv404_degrades.1 goodCfg "5" 5 sampleUpT (fun _ => .http 404 "Not Found" "")
     "Not Found" "" (by decide) rfl,
   (conv404_degrades.2 goodCfg "5" 5 sampleUpT (fun _ => .http 404 "Not Found" "")
     sampleUpC).2⟩

end Freshdesk
